import Mathlib

/-!
Shallow embedding of the ato3cal repository: an interactive calculator
(`src/src/main.rs`) over six per-scenario linear models, and a model builder
(`src/model_builder/src/main.rs`) fitting a five-coefficient polynomial model
by SVD least squares. Rust `f64` values are modelled as exact rationals (`ℚ`).
-/

set_option maxHeartbeats 1000000

/-- `LinearModel` from src/src/main.rs: slope and intercept of a fitted line. -/
structure LinearModel where
  slope : ℚ
  intercept : ℚ
deriving DecidableEq, Repr

/-- `LinearModel::predict`: `slope * x + intercept` (src/src/main.rs lines 19-23). -/
def LinearModel.predict (m : LinearModel) (x : ℚ) : ℚ :=
  m.slope * x + m.intercept

/-- `PredictionSystem` from src/src/main.rs: six independently fitted linear
models, one per scenario, in declared field order. -/
structure PredictionSystem where
  stopover_same : LinearModel
  direct_same : LinearModel
  stopover_twice : LinearModel
  direct_twice : LinearModel
  stopover_thrice : LinearModel
  direct_thrice : LinearModel
deriving DecidableEq, Repr

/-- `Scenario` enum from src/src/main.rs. -/
inductive Scenario
  | StopoverSame
  | DirectSame
  | StopoverTwice
  | DirectTwice
  | StopoverThrice
  | DirectThrice
deriving DecidableEq, Repr

/-- `Scenario::all()` (src/src/main.rs lines 71-80). -/
def Scenario.all : List Scenario :=
  [.StopoverSame, .DirectSame, .StopoverTwice, .DirectTwice, .StopoverThrice, .DirectThrice]

/-- `InputMode` from src/src/main.rs. -/
inductive InputMode
  | Normal
  | Editing
deriving DecidableEq, Repr

/-- `FocusedField` from src/src/main.rs. -/
inductive FocusedField
  | MyCityPoint
  | PlaneSeating
  | Scenario
deriving DecidableEq, Repr

/-- `App` state from src/src/main.rs lines 83-91. -/
structure App where
  my_city_point : String
  plane_seating : String
  selected_scenario_idx : Nat
  input_mode : InputMode
  focused_field : FocusedField
  prediction_system : PredictionSystem
  scenarios : List Scenario

/-- `App::new` (src/src/main.rs lines 94-104). -/
def App.new (sys : PredictionSystem) : App where
  my_city_point := ""
  plane_seating := ""
  selected_scenario_idx := 0
  input_mode := .Normal
  focused_field := .MyCityPoint
  prediction_system := sys
  scenarios := Scenario.all

/-- `App::get_current_model` (src/src/main.rs lines 106-116).  The Rust code
indexes `self.scenarios[self.selected_scenario_idx]` (panicking out of bounds);
modelled with `getD` — in-bounds access is the invariant proved for C10. -/
def App.get_current_model (a : App) : LinearModel :=
  match a.scenarios.getD a.selected_scenario_idx .StopoverSame with
  | .StopoverSame => a.prediction_system.stopover_same
  | .DirectSame => a.prediction_system.direct_same
  | .StopoverTwice => a.prediction_system.stopover_twice
  | .DirectTwice => a.prediction_system.direct_twice
  | .StopoverThrice => a.prediction_system.stopover_thrice
  | .DirectThrice => a.prediction_system.direct_thrice

/-- Value of a list of decimal digit characters. -/
def digitsVal (cs : List Char) : Nat :=
  cs.foldl (fun acc c => acc * 10 + (c.toNat - 48)) 0

/-- Models Rust `str::parse::<f64>` (external std library) on the strings the
UI can hold: digit characters with at most one decimal point.  `"5"`, `"5."`,
`".5"` parse; `""`, `"."`, `"1.2.3"` and strings with other characters fail,
as in Rust. -/
def parseF64 (s : String) : Option ℚ :=
  match s.toList.splitOn '.' with
  | [w] =>
    if w.all Char.isDigit && !w.isEmpty then some (digitsVal w) else none
  | [w, f] =>
    if w.all Char.isDigit && f.all Char.isDigit && !(w.isEmpty && f.isEmpty) then
      some ((digitsVal w : ℚ) + (digitsVal f : ℚ) / 10 ^ f.length)
    else none
  | _ => none

/-- `App::calculate` (src/src/main.rs lines 118-127): parse both text fields,
evaluate the selected scenario model at the seating, and return the required
sum together with `required_sum - my_point`.  Takes `&self` in Rust: it cannot
mutate the app state; here it is a pure function of the state. -/
def App.calculate (a : App) : Option (ℚ × ℚ) := do
  let seating ← parseF64 a.plane_seating
  let my_point ← parseF64 a.my_city_point
  let model := a.get_current_model
  let required_sum := model.predict seating
  let other_city_needed := required_sum - my_point
  some (required_sum, other_city_needed)

/-- `App::next_field` (src/src/main.rs lines 129-135). -/
def App.next_field (a : App) : App :=
  { a with focused_field :=
      match a.focused_field with
      | .MyCityPoint => .PlaneSeating
      | .PlaneSeating => .Scenario
      | .Scenario => .MyCityPoint }

/-- `App::prev_field` (src/src/main.rs lines 137-143). -/
def App.prev_field (a : App) : App :=
  { a with focused_field :=
      match a.focused_field with
      | .MyCityPoint => .Scenario
      | .PlaneSeating => .MyCityPoint
      | .Scenario => .PlaneSeating }

/-- Key codes handled by `run_app` (src/src/main.rs lines 186-247); `other`
stands for every key the match ignores. -/
inductive KeyCode
  | char (c : Char)
  | enter
  | esc
  | tab
  | backTab
  | up
  | down
  | left
  | right
  | backspace
  | other
deriving DecidableEq, Repr

/-- Remove the last character of a string (Rust `String::pop`). -/
def strPop (s : String) : String :=
  String.mk s.toList.dropLast

/-- One key-press transition of `run_app`'s event loop (src/src/main.rs lines
185-248).  `q` quits the loop, leaving the state as it is; redrawing has no
effect on the state. -/
def step (a : App) (k : KeyCode) : App :=
  match a.input_mode with
  | .Normal =>
    match k with
    | .char _ => a
    | .tab => a.next_field
    | .down => a.next_field
    | .backTab => a.prev_field
    | .up => a.prev_field
    | .enter =>
      if a.focused_field = .Scenario then
        if a.selected_scenario_idx + 1 ≥ a.scenarios.length then
          { a with selected_scenario_idx := 0 }
        else
          { a with selected_scenario_idx := a.selected_scenario_idx + 1 }
      else
        { a with input_mode := .Editing }
    | .left =>
      if a.focused_field = .Scenario then
        if a.selected_scenario_idx > 0 then
          { a with selected_scenario_idx := a.selected_scenario_idx - 1 }
        else
          { a with selected_scenario_idx := a.scenarios.length - 1 }
      else a
    | .right =>
      if a.focused_field = .Scenario then
        if a.selected_scenario_idx + 1 ≥ a.scenarios.length then
          { a with selected_scenario_idx := 0 }
        else
          { a with selected_scenario_idx := a.selected_scenario_idx + 1 }
      else a
    | _ => a
  | .Editing =>
    match k with
    | .enter => { a with input_mode := .Normal }
    | .esc => { a with input_mode := .Normal }
    | .char c =>
      match a.focused_field with
      | .MyCityPoint =>
        if c.isDigit || c == '.' then { a with my_city_point := a.my_city_point.push c } else a
      | .PlaneSeating =>
        if c.isDigit || c == '.' then { a with plane_seating := a.plane_seating.push c } else a
      | .Scenario => a
    | .backspace =>
      match a.focused_field with
      | .MyCityPoint => { a with my_city_point := strPop a.my_city_point }
      | .PlaneSeating => { a with plane_seating := strPop a.plane_seating }
      | .Scenario => a
    | _ => a

/-- `PolyModel` from src/model_builder/src/main.rs: a weight vector. -/
structure PolyModel where
  weights : List ℚ
deriving DecidableEq, Repr

/-- `PolyModel::predict` (src/model_builder/src/main.rs lines 14-19): build the
feature list `[1.0, seats, ratio, ratio*ratio, direct_val]` and sum the
pairwise products with the weights — Rust's `zip` stops at the shorter list. -/
def PolyModel.predict (m : PolyModel) (seats ratio : ℚ) (is_direct : Bool) : ℚ :=
  let direct_val : ℚ := if is_direct then 1 else 0
  let features : List ℚ := [1, seats, ratio, ratio * ratio, direct_val]
  ((features.zip m.weights).map (fun p => p.1 * p.2)).sum

/-- Dot product by pairwise zip, as both `predict` and the trainer use. -/
def dotSum (xs ys : List ℚ) : ℚ :=
  ((xs.zip ys).map (fun p => p.1 * p.2)).sum

/-- The design-matrix rows `train_model` pushes for each sample
`(seats, ratio, is_direct, target)` (src/model_builder/src/main.rs lines
30-38): `[1.0, seats, ratio, ratio*ratio, is_direct as float]`. -/
def trainDesignMatrix (samples : List (ℚ × ℚ × Bool × ℚ)) : List (List ℚ) :=
  samples.map (fun s =>
    match s with
    | (seats, ratio, is_direct, _) =>
      [1, seats, ratio, ratio * ratio, if is_direct then 1 else 0])

/-- The target vector `train_model` builds. -/
def trainTargets (samples : List (ℚ × ℚ × Bool × ℚ)) : List ℚ :=
  samples.map (fun s => s.2.2.2)

/-- The absolute singular-value tolerance `1e-10` passed to the SVD solve
(src/model_builder/src/main.rs line 45). -/
def svdTolerance : ℚ := 1 / 10 ^ 10

/-- Outcome of `train_model`: either a fitted model, or a process panic —
`panicked` models Rust's `.expect(msg)` aborting the process, not a
recoverable error value. -/
inductive TrainOutcome
  | fitted (m : PolyModel)
  | panicked (msg : String)
deriving DecidableEq, Repr

/-- `train_model` (src/model_builder/src/main.rs lines 22-50), parameterized
over the SVD least-squares solve supplied by the external nalgebra library
(`x.svd(true, true).solve(&y, 1e-10)`), which is given the design matrix, the
targets and the tolerance and may fail.  On a failed solve the Rust code calls
`.expect("Linear regression failed")`, which panics. -/
def train_model (solve : List (List ℚ) → List ℚ → ℚ → Option (List ℚ))
    (samples : List (ℚ × ℚ × Bool × ℚ)) : TrainOutcome :=
  match solve (trainDesignMatrix samples) (trainTargets samples) svdTolerance with
  | some w => .fitted { weights := w }
  | none => .panicked "Linear regression failed"

/-- Serialization tokens: bincode 1.x (external library) writes a `u64` length
prefix for a `Vec` and 8 bytes per `f64`; each token stands for one 8-byte
unit of the artifact. -/
inductive SerToken
  | word (n : Nat)
  | float (q : ℚ)
deriving DecidableEq, Repr

/-- `bincode::serialize_into(&mut writer, &model)` for `PolyModel`
(src/model_builder/src/main.rs line 91): length prefix of `weights`, then the
weight floats in order. -/
def serializePolyModel (m : PolyModel) : List SerToken :=
  .word m.weights.length :: m.weights.map .float

/-- A token reinterpreted as an `f64` payload (byte reinterpretation of a
length word is not modelled further; no theorem below depends on its value). -/
def tokenFloat (t : SerToken) : ℚ :=
  match t with
  | .word n => n
  | .float q => q

/-- `bincode::deserialize::<PredictionSystem>` (src/src/main.rs line 149):
`PredictionSystem` is twelve consecutive `f64` fields (six `LinearModel`s of
two floats each), so bincode consumes exactly twelve 8-byte units and fails
with an end-of-input error on a shorter artifact. -/
def deserializePredictionSystem (ts : List SerToken) : Option PredictionSystem :=
  match ts with
  | [a, b, c, d, e, f, g, h, i, j, k, l] =>
    some {
      stopover_same := ⟨tokenFloat a, tokenFloat b⟩
      direct_same := ⟨tokenFloat c, tokenFloat d⟩
      stopover_twice := ⟨tokenFloat e, tokenFloat f⟩
      direct_twice := ⟨tokenFloat g, tokenFloat h⟩
      stopover_thrice := ⟨tokenFloat i, tokenFloat j⟩
      direct_thrice := ⟨tokenFloat k, tokenFloat l⟩ }
  | _ => none

/-- Modelled from the spec: the two-variable OLS trainer for `LinearModel` is
code of this repository not present under src/ (only `LinearModel` and its
`predict` are).  Spec §4.2: `slope = (n·Σxy − Σx·Σy) / (n·Σxx − (Σx)²)`,
`intercept = (Σy − slope·Σx)/n`; the degenerate zero-denominator case "must be
surfaced as a fitting failure", modelled as `none`. -/
def train_linear (xs ys : List ℚ) : Option LinearModel :=
  let n : ℚ := xs.length
  let den := n * (xs.map (fun x => x * x)).sum - xs.sum * xs.sum
  if den = 0 then none
  else
    let slope := (n * dotSum xs ys - xs.sum * ys.sum) / den
    some { slope := slope, intercept := (ys.sum - slope * xs.sum) / n }

/-- The dummy prediction system of the repository's own test
`test_app_calculation` (src/src/main.rs lines 330-354): every scenario model
is `slope = 2, intercept = 100`. -/
def dummySys : PredictionSystem :=
  let m : LinearModel := { slope := 2, intercept := 100 }
  ⟨m, m, m, m, m, m⟩

/-- The app state of `test_app_calculation`: fresh app with
`my_city_point = "500"`, `plane_seating = "100"`. -/
def testApp : App :=
  { App.new dummySys with my_city_point := "500", plane_seating := "100" }

/-- The invariant of C10: the selected index is in bounds and the scenario
list is the fixed six-element list. -/
def AppInv (a : App) : Prop :=
  a.selected_scenario_idx < a.scenarios.length ∧ a.scenarios = Scenario.all

/-- Helper app for witnesses: normal mode, scenario field focused, at index `i`. -/
def appAtIdx (i : Nat) : App :=
  { App.new dummySys with focused_field := .Scenario, selected_scenario_idx := i }

/-- Claim C2: for a five-weight `PolyModel`, `predict` is exactly the dot
product of the weights with the feature vector
`[1, seats, ratio, ratio^2, isDirect]` in that fixed order. -/
theorem polyModel_predict_is_dot_product (w0 w1 w2 w3 w4 seats ratio : ℚ) (is_direct : Bool) :
    PolyModel.predict ⟨[w0, w1, w2, w3, w4]⟩ seats ratio is_direct =
      w0 * 1 + w1 * seats + w2 * ratio + w3 * ratio ^ 2 +
        w4 * (if is_direct then 1 else 0) := by
  cases is_direct <;> simp [PolyModel.predict] <;> ring

/-- Claim C3 (evaluating the code at the failing input): with an empty weight
vector, `PolyModel::predict` silently returns 0 for every input — Rust's `zip`
truncates to the shorter list, so the dot product is empty and sums to 0.0,
rather than failing as the spec requires. -/
theorem polyModel_predict_empty_weights_zero (seats ratio : ℚ) (is_direct : Bool) :
    PolyModel.predict ⟨[]⟩ seats ratio is_direct = 0 := by
  simp [PolyModel.predict]

/-- Claim C9: `App::calculate` returns `none` exactly when one of the two text
fields fails to parse as a float; `calculate` takes `&self` in Rust and is a
pure function of the state here, so a failing calculate cannot change any app
state. -/
theorem calculate_none_iff_parse_failure (a : App) :
    a.calculate = none ↔
      parseF64 a.my_city_point = none ∨ parseF64 a.plane_seating = none := by
  cases hps : parseF64 a.plane_seating <;> cases hmp : parseF64 a.my_city_point <;>
    simp [App.calculate, hps, hmp]

/-- Claim C1 (counterexample): on the repository's own test state
(`my_city_point = "500"`, `plane_seating = "100"`, every model
`slope = 2, intercept = 100`), `calculate` returns `some (300, -200)`: the
second component is negative, refuting "the returned p2 is never negative"
(and it is not the minimal non-negative p2 with p1 + p2 ≥ requiredSum, which
would be 0). -/
theorem calculate_testApp_negative_needed :
    App.calculate testApp = some (300, -200) ∧ (-200 : ℚ) < 0 := by
  have h1 : parseF64 "100" = some 100 := by rfl
  have h2 : parseF64 "500" = some 500 := by rfl
  refine ⟨?_, by norm_num⟩
  simp [App.calculate, h1, h2, App.get_current_model, testApp, dummySys, App.new,
    LinearModel.predict, Scenario.all]
  norm_num

/-- Claim C1 (amended): when both fields parse as `p1` and `seats`,
`calculate` returns `some (requiredSum, requiredSum - p1)` for the selected
scenario model — the signed difference, not clamped at zero. -/
theorem calculate_returns_signed_difference (a : App) (p1 seats : ℚ)
    (h1 : parseF64 a.my_city_point = some p1)
    (h2 : parseF64 a.plane_seating = some seats) :
    a.calculate = some (a.get_current_model.predict seats,
      a.get_current_model.predict seats - p1) := by
  simp [App.calculate, h1, h2]

/-- Witness for C1's amended theorem at the repository's test state. -/
theorem calculate_returns_signed_difference_witness :
    App.calculate testApp = some (testApp.get_current_model.predict 100,
      testApp.get_current_model.predict 100 - 500) :=
  calculate_returns_signed_difference testApp 500 100 (by rfl) (by rfl)

/-- Claim C4: whenever the external SVD least-squares solve fails,
`train_model` panics the process (Rust `.expect("Linear regression failed")`)
instead of surfacing an explicit fitting-failure value. -/
theorem train_model_panics_when_solve_fails
    (solve : List (List ℚ) → List ℚ → ℚ → Option (List ℚ))
    (samples : List (ℚ × ℚ × Bool × ℚ))
    (h : solve (trainDesignMatrix samples) (trainTargets samples) svdTolerance = none) :
    train_model solve samples = .panicked "Linear regression failed" := by
  simp [train_model, h]

/-- Witness for C4's theorem with a solver that reports failure. -/
theorem train_model_panics_when_solve_fails_witness :
    train_model (fun _ _ _ => none) [] = .panicked "Linear regression failed" :=
  train_model_panics_when_solve_fails (fun _ _ _ => none) [] rfl

/-- Claim C8: the design-matrix row `train_model` builds for a sample is
exactly the feature vector `predict` later dots against the weights, and the
singular-value tolerance passed to the solve is `1e-10`. -/
theorem design_row_matches_predict_features (seats ratio t : ℚ) (is_direct : Bool)
    (w : List ℚ) :
    PolyModel.predict ⟨w⟩ seats ratio is_direct =
      dotSum ((trainDesignMatrix [(seats, ratio, is_direct, t)]).getD 0 []) w ∧
    svdTolerance = 1 / 10 ^ 10 :=
  ⟨rfl, rfl⟩

/-- Helper for C5: a token stream only deserializes as a `PredictionSystem`
when it holds exactly twelve 8-byte units. -/
theorem deserialize_some_length (ts : List SerToken)
    (h : deserializePredictionSystem ts ≠ none) : ts.length = 12 := by
  unfold deserializePredictionSystem at h
  split at h
  · simp
  · exact absurd rfl h

/-- Claim C5: the artifact does not round-trip — the trainer serializes a
`PolyModel` (a length prefix plus its five weights, six 8-byte units) while
the interactive tool deserializes a `PredictionSystem` (twelve `f64` fields),
so reading the written artifact fails instead of recovering the structure. -/
theorem artifact_roundtrip_fails (m : PolyModel) (h : m.weights.length = 5) :
    deserializePredictionSystem (serializePolyModel m) = none := by
  by_contra hne
  have hlen := deserialize_some_length _ hne
  simp [serializePolyModel, h] at hlen

/-- Witness for C5's theorem on a concrete five-weight model. -/
theorem artifact_roundtrip_fails_witness :
    (⟨[1, 2, 3, 4, 5]⟩ : PolyModel).weights.length = 5 ∧
    deserializePredictionSystem (serializePolyModel ⟨[1, 2, 3, 4, 5]⟩) = none :=
  ⟨rfl, artifact_roundtrip_fails ⟨[1, 2, 3, 4, 5]⟩ rfl⟩

/-- Claim C6 (counterexample): with weights `[0, 0, 1, -1, 0]` the ratio
coefficient `weights[2] = 1` is positive, yet raising the ratio from `1/2` to
`1` strictly decreases the prediction — the `ratio²` term breaks monotonicity
over all ratio values. -/
theorem predict_not_ratio_monotone_counterexample :
    (0 : ℚ) < (PolyModel.mk [0, 0, 1, -1, 0]).weights.getD 2 0 ∧ (1 / 2 : ℚ) < 1 ∧
    PolyModel.predict ⟨[0, 0, 1, -1, 0]⟩ 0 1 false <
      PolyModel.predict ⟨[0, 0, 1, -1, 0]⟩ 0 (1 / 2) false := by
  refine ⟨by norm_num, by norm_num, ?_⟩
  norm_num [PolyModel.predict]

/-- Claim C6 (amended): holding seats and directness fixed, `predict` is
monotone in ratio in the direction of the sign of `weights[2]` provided the
ratio-squared coefficient `weights[3]` is zero. -/
theorem predict_ratio_monotone_of_sq_coeff_zero (w0 w1 w2 w4 seats r1 r2 : ℚ)
    (is_direct : Bool) :
    (0 < w2 → r1 ≤ r2 →
      PolyModel.predict ⟨[w0, w1, w2, 0, w4]⟩ seats r1 is_direct ≤
        PolyModel.predict ⟨[w0, w1, w2, 0, w4]⟩ seats r2 is_direct) ∧
    (w2 < 0 → r1 ≤ r2 →
      PolyModel.predict ⟨[w0, w1, w2, 0, w4]⟩ seats r2 is_direct ≤
        PolyModel.predict ⟨[w0, w1, w2, 0, w4]⟩ seats r1 is_direct) := by
  have hp : ∀ r : ℚ, PolyModel.predict ⟨[w0, w1, w2, 0, w4]⟩ seats r is_direct =
      w0 + seats * w1 + r * w2 + (if is_direct then (1 : ℚ) else 0) * w4 := by
    intro r
    cases is_direct <;> simp [PolyModel.predict] <;> ring
  constructor
  · intro hw hr
    rw [hp, hp]
    have := mul_le_mul_of_nonneg_right hr hw.le
    linarith
  · intro hw hr
    rw [hp, hp]
    nlinarith

/-- Witness for C6's amended theorem with a positive ratio coefficient. -/
theorem predict_ratio_monotone_of_sq_coeff_zero_witness :
    PolyModel.predict ⟨[1, 2, 3, 0, 4]⟩ 5 1 true ≤
      PolyModel.predict ⟨[1, 2, 3, 0, 4]⟩ 5 2 true :=
  (predict_ratio_monotone_of_sq_coeff_zero 1 2 3 4 5 1 2 true).1 (by norm_num) (by norm_num)

/-- Helper for C7: sum of points on the line `y = m·x + b`. -/
theorem sum_map_line (xs : List ℚ) (m b : ℚ) :
    (xs.map (fun x => m * x + b)).sum = m * xs.sum + b * xs.length := by
  induction xs with
  | nil => simp
  | cons x t ih =>
    simp only [List.map_cons, List.sum_cons, List.length_cons, ih]
    push_cast
    ring

/-- Helper for C7: `Σxy` for points on the line `y = m·x + b`. -/
theorem dotSum_map_line (xs : List ℚ) (m b : ℚ) :
    dotSum xs (xs.map (fun x => m * x + b)) =
      m * (xs.map (fun x => x * x)).sum + b * xs.sum := by
  induction xs with
  | nil => simp [dotSum]
  | cons x t ih =>
    simp only [dotSum, List.map_cons, List.zip_cons_cons, List.sum_cons] at *
    rw [ih]
    ring

/-- Claim C7 (counterexample): `x = [1, 1]`, `y = [2, 2]` has `n = 2` and all
points on the exact line `y = 2·x + 0`, yet the OLS denominator
`n·Σxx − (Σx)² = 0` is degenerate, so the trainer surfaces a fitting failure
(per spec §4.2) instead of recovering `slope = 2`. -/
theorem train_linear_degenerate_counterexample :
    ([2, 2] : List ℚ) = [1, 1].map (fun x => 2 * x + 0) ∧
    train_linear [1, 1] ([2, 2] : List ℚ) = none := by
  constructor
  · norm_num
  · simp only [train_linear]
    norm_num

/-- Claim C7 (amended): on equal-length data of `n ≥ 2` points lying on the
exact line `y = m·x + b` whose `x` values are not all identical (nonzero OLS
denominator), the spec's two-variable OLS formulas recover `slope = m` and
`intercept = b` exactly (hence within `1e-6`); moreover on
`x = [1, 2, 3]`, `y = [2, 4, 6]` the fit is `slope = 2`, `intercept = 0` and
the resulting model predicts `8` at `4`. -/
theorem train_linear_recovers_exact_line (xs : List ℚ) (m b : ℚ) (hn : 2 ≤ xs.length)
    (hden : (xs.length : ℚ) * (xs.map (fun x => x * x)).sum - xs.sum * xs.sum ≠ 0) :
    train_linear xs (xs.map (fun x => m * x + b)) = some ⟨m, b⟩ ∧
    train_linear [1, 2, 3] ([2, 4, 6] : List ℚ) = some ⟨2, 0⟩ ∧
    LinearModel.predict ⟨2, 0⟩ 4 = 8 := by
  refine ⟨?_, ?_, by norm_num [LinearModel.predict]⟩
  · have hnz : ((xs.length : ℚ)) ≠ 0 := by
      have : (0 : ℚ) < xs.length := by exact_mod_cast Nat.lt_of_lt_of_le (by norm_num) hn
      exact this.ne'
    simp only [train_linear]
    rw [if_neg hden]
    rw [dotSum_map_line, sum_map_line]
    have hslope : ((xs.length : ℚ) * (m * (xs.map (fun x => x * x)).sum + b * xs.sum) -
        xs.sum * (m * xs.sum + b * xs.length)) /
        ((xs.length : ℚ) * (xs.map (fun x => x * x)).sum - xs.sum * xs.sum) = m := by
      rw [div_eq_iff hden]
      ring
    rw [hslope]
    have hint : (m * xs.sum + b * (xs.length : ℚ) - m * xs.sum) / (xs.length : ℚ) = b := by
      field_simp
    rw [hint]
  · have h2 : ([2, 4, 6] : List ℚ) = [1, 2, 3].map (fun x => 2 * x + 0) := by norm_num
    rw [h2]
    simp only [train_linear]
    norm_num [dotSum]

/-- Witness for C7's amended theorem on `x = [1, 2, 3]`. -/
theorem train_linear_recovers_exact_line_witness :
    train_linear [1, 2, 3] (([1, 2, 3] : List ℚ).map (fun x => 2 * x + 0)) = some ⟨2, 0⟩ :=
  (train_linear_recovers_exact_line [1, 2, 3] 2 0 (by norm_num) (by norm_num [List.sum])).1

/-- Helper for C10: `next_field` only changes the focused field. -/
theorem next_field_idx (a : App) :
    (App.next_field a).selected_scenario_idx = a.selected_scenario_idx := rfl

/-- Helper for C10: `next_field` keeps the scenario list. -/
theorem next_field_scen (a : App) : (App.next_field a).scenarios = a.scenarios := rfl

/-- Helper for C10: `prev_field` only changes the focused field. -/
theorem prev_field_idx (a : App) :
    (App.prev_field a).selected_scenario_idx = a.selected_scenario_idx := rfl

/-- Helper for C10: `prev_field` keeps the scenario list. -/
theorem prev_field_scen (a : App) : (App.prev_field a).scenarios = a.scenarios := rfl

/-- Helper for C10: one key-press transition preserves the index invariant. -/
theorem step_preserves_inv (a : App) (k : KeyCode) (h : AppInv a) : AppInv (step a k) := by
  obtain ⟨hlt, hsc⟩ := h
  rcases a with ⟨mcp, ps, idx, im, ff, sys, sc⟩
  simp only at hlt hsc
  subst hsc
  unfold AppInv
  cases im <;> cases k <;> delta step <;> dsimp only <;> (repeat' split) <;>
    simp_all [Scenario.all, next_field_idx, next_field_scen, prev_field_idx, prev_field_scen] <;>
    omega

/-- Helper for C10: any sequence of key presses preserves the invariant. -/
theorem foldl_step_inv (ks : List KeyCode) (a : App) (h : AppInv a) :
    AppInv (List.foldl step a ks) := by
  induction ks generalizing a with
  | nil => exact h
  | cons k t ih => exact ih _ (step_preserves_inv a k h)

/-- Helper for C10: `Right` and `Enter` on the scenario field wrap the last
index (5) to 0. -/
theorem step_wrap_right_enter (a : App) (h1 : a.input_mode = .Normal)
    (h2 : a.focused_field = .Scenario) (h3 : a.scenarios = Scenario.all)
    (h4 : a.selected_scenario_idx = 5) :
    (step a .right).selected_scenario_idx = 0 ∧
      (step a .enter).selected_scenario_idx = 0 := by
  rcases a with ⟨mcp, ps, idx, im, ff, sys, sc⟩
  simp only at h1 h2 h3 h4
  subst h1 h2 h3 h4
  constructor <;> (delta step; simp [Scenario.all])

/-- Helper for C10: `Left` on the scenario field wraps index 0 to the last
index (5). -/
theorem step_wrap_left (a : App) (h1 : a.input_mode = .Normal)
    (h2 : a.focused_field = .Scenario) (h3 : a.scenarios = Scenario.all)
    (h4 : a.selected_scenario_idx = 0) :
    (step a .left).selected_scenario_idx = 5 := by
  rcases a with ⟨mcp, ps, idx, im, ff, sys, sc⟩
  simp only at h1 h2 h3 h4
  subst h1 h2 h3 h4
  delta step
  simp [Scenario.all]

/-- Claim C10: in every app state reachable from `App::new` by any sequence of
key events, `selected_scenario_idx` is strictly below `scenarios.length`,
which stays the fixed six-scenario list; `Enter`/`Right` on the scenario field
wrap the last index to 0 and `Left` wraps 0 to the last, so the indexing in
`get_current_model` and the scenario display never goes out of bounds. -/
theorem scenario_index_always_in_bounds (sys : PredictionSystem) (ks : List KeyCode) :
    AppInv (List.foldl step (App.new sys) ks) ∧
    (List.foldl step (App.new sys) ks).scenarios.length = 6 ∧
    (∀ a : App, a.input_mode = .Normal → a.focused_field = .Scenario →
      a.scenarios = Scenario.all → a.selected_scenario_idx = 5 →
      (step a .right).selected_scenario_idx = 0 ∧
        (step a .enter).selected_scenario_idx = 0) ∧
    (∀ a : App, a.input_mode = .Normal → a.focused_field = .Scenario →
      a.scenarios = Scenario.all → a.selected_scenario_idx = 0 →
      (step a .left).selected_scenario_idx = 5) := by
  have hinv : AppInv (List.foldl step (App.new sys) ks) :=
    foldl_step_inv ks (App.new sys) ⟨by show (0 : Nat) < Scenario.all.length; decide, rfl⟩
  refine ⟨hinv, ?_, step_wrap_right_enter, step_wrap_left⟩
  rw [hinv.2]
  rfl

/-- Witness for C10 at a concrete key sequence and concrete boundary states. -/
theorem scenario_index_always_in_bounds_witness :
    AppInv (List.foldl step (App.new dummySys) [KeyCode.down]) ∧
    (step (appAtIdx 5) .right).selected_scenario_idx = 0 ∧
    (step (appAtIdx 0) .left).selected_scenario_idx = 5 :=
  ⟨(scenario_index_always_in_bounds dummySys [KeyCode.down]).1,
   ((scenario_index_always_in_bounds dummySys []).2.2.1 (appAtIdx 5) rfl rfl rfl rfl).1,
   (scenario_index_always_in_bounds dummySys []).2.2.2 (appAtIdx 0) rfl rfl rfl rfl⟩
